import Mathlib

/-!
Formal model of the statistical analytics pipeline implemented in
src/server/main.py of the nika-analytics repository: schema inference
(the helper coercing raw records to a typed dataframe), insight generation
(the insights endpoint), forecasting (the forecast endpoint) and anomaly
detection (the anomaly endpoint).

Modelling conventions:
* a JSON scalar is a rational number or a string; null and absent fields
  are both missing values (pandas NaN).
* pandas floats are modelled by exact rationals.
* quantities whose float computation takes a square root (standard
  deviation, Pearson correlation) are represented by their exact squares
  (population variance, squared correlation); every comparison the code
  makes on such a quantity is translated to the equivalent exact
  comparison on the square.
* the optional libraries statsmodels and scikit-learn are external
  capabilities; each is modelled as an oracle parameter, where the value
  none means the library is unavailable or its fit raised.
* an uncaught Python exception escaping the endpoint is modelled by
  Except.error with a message naming the culprit.
-/

namespace Nika

/- Batteries marks the rational arithmetic operations irreducible; restore
the default transparency so that concrete runs of the model reduce. -/
attribute [local semireducible] Rat.add Rat.sub Rat.mul Rat.inv

/-- A raw non-missing JSON scalar as received by the API: a number or a
string.  Missing values (JSON null, or a field absent from a record) are
represented by Option.none one level up. -/
inductive Raw where
  | num (q : ℚ)
  | str (s : String)
deriving DecidableEq

/-- One input record: an ordered field-name to scalar mapping
(a row of the request body). -/
abbrev Record := List (String × Option Raw)

/-- Numeric value of a decimal digit character, none for other characters. -/
def digitVal (c : Char) : Option ℕ :=
  if '0' ≤ c ∧ c ≤ '9' then some (c.toNat - ('0').toNat) else none

def digitsValAux (acc : ℕ) : List Char → Option ℕ
  | [] => some acc
  | c :: cs =>
    match digitVal c with
    | some d => digitsValAux (10 * acc + d) cs
    | none => none

/-- Value of a nonempty all-digit character list. -/
def digitsVal (l : List Char) : Option ℕ :=
  if l.isEmpty then none else digitsValAux 0 l

/-- Unsigned decimal literal: digits with an optional fractional part. -/
def parseUnsigned (l : List Char) : Option ℚ :=
  let ip := l.takeWhile (fun c => c != '.')
  let rest := l.dropWhile (fun c => c != '.')
  match rest with
  | [] => (digitsVal ip).map (fun n => (n : ℚ))
  | _ :: fp =>
    if fp.contains '.' then none
    else if ip.isEmpty && fp.isEmpty then none
    else
      match (if ip.isEmpty then some 0 else digitsVal ip),
            (if fp.isEmpty then some 0 else digitsVal fp) with
      | some a, some b => some ((a : ℚ) + (b : ℚ) / (10 : ℚ) ^ fp.length)
      | _, _ => none

/-- Model of pd.to_numeric on a single string: signed decimal literals.
This is a sublanguage of the grammar pandas accepts (exponents and
locale separators are not modelled; no claim depends on them). -/
def parseNum (s : String) : Option ℚ :=
  match s.toList with
  | [] => none
  | '-' :: rest => (parseUnsigned rest).map (fun q => -q)
  | '+' :: rest => parseUnsigned rest
  | l => parseUnsigned l

def splitDashAux (cur : List Char) : List Char → List (List Char)
  | [] => [cur.reverse]
  | c :: cs =>
    if c = '-' then cur.reverse :: splitDashAux [] cs
    else splitDashAux (c :: cur) cs

/-- Model of pd.to_datetime on a single string: ISO dates YYYY-MM-DD, a
sublanguage of the permissive parser pandas uses.  The result is an
abstract day index, linear in (year, month, day) so that
consecutive calendar days inside one month are one unit apart and the
ordering of dates is preserved. -/
def parseDate (s : String) : Option ℤ :=
  match splitDashAux [] s.toList with
  | [ys, ms, ds] =>
    match digitsVal ys, digitsVal ms, digitsVal ds with
    | some y, some m, some d =>
      if 1 ≤ m ∧ m ≤ 12 ∧ 1 ≤ d ∧ d ≤ 31 then
        some (372 * (y : ℤ) + 31 * ((m : ℤ) - 1) + ((d : ℤ) - 1))
      else none
    | _, _, _ => none
  | _ => none

/-- Numeric interpretation of one scalar (pd.to_numeric on one value). -/
def rawToNum : Raw → Option ℚ
  | .num q => some q
  | .str s => parseNum s

/-- Datetime interpretation of one scalar.  Numbers are rejected: in the
coercion chain a column reaches the datetime attempt only when some value
failed the numeric parse, and pandas raises on such mixed columns. -/
def rawToDate : Raw → Option ℤ
  | .num _ => none
  | .str s => parseDate s

/-- A typed column: the all-or-nothing result of schema inference.
Missing values stay missing in every variant. -/
inductive Column where
  | numeric (vals : List (Option ℚ))
  | datetime (vals : List (Option ℤ))
  | categorical (vals : List (Option Raw))
deriving DecidableEq

/-- Attempt a parse of every value of a column: succeeds (returning the
parsed column, missing entries kept missing) only when every non-missing
value parses.  Models the all-or-nothing behaviour of pd.to_numeric and
pd.to_datetime applied to a whole column with errors left at the default
(raise), inside try/except. -/
def tryAll {α : Type} (p : Raw → Option α) : List (Option Raw) → Option (List (Option α))
  | [] => some []
  | none :: rest => (tryAll p rest).map (fun t => none :: t)
  | some r :: rest =>
    match p r with
    | none => none
    | some a => (tryAll p rest).map (fun t => some a :: t)

/-- Schema inference for one column, the per-column body of the
dataframe coercion helper in main.py (lines 44-60): attempt a numeric
cast of the whole column; on failure attempt a datetime cast; on failure
keep the original values.  A failed attempt never raises: it falls
through to the next candidate type. -/
def coerceColumn (vals : List (Option Raw)) : Column :=
  match tryAll rawToNum vals with
  | some ns => .numeric ns
  | none =>
    match tryAll rawToDate vals with
    | some ds => .datetime ds
    | none => .categorical vals

/-- A typed table: named columns in first-seen order, all row-aligned,
plus the row count.  Rows are identified by their original input
position. -/
structure DataFrame where
  cols : List (String × Column)
  nrows : ℕ
deriving DecidableEq

/-- Column names in first-seen order across the input records
(the pandas DataFrame constructor on a list of dicts). -/
def collectNames (data : List Record) : List String :=
  data.foldl (fun acc r => r.foldl (fun a p => if p.1 ∈ a then a else a ++ [p.1]) acc) []

/-- Value of field c in one record; absent fields are missing. -/
def lookupField (c : String) (r : Record) : Option Raw :=
  match r.lookup c with
  | some o => o
  | none => none

/-- Model of the dataframe coercion helper of main.py: build the
dataframe from the records, then run the numeric/datetime/categorical
inference chain on every column. -/
def coerce_dataframe (data : List Record) : DataFrame :=
  ⟨(collectNames data).map (fun c => (c, coerceColumn (data.map (lookupField c)))),
   data.length⟩

/-- df.empty: any axis of length zero. -/
def DataFrame.empty (df : DataFrame) : Bool :=
  df.nrows = 0 || df.cols.isEmpty

/-- Column lookup, df.getCol c = df[c] when present. -/
def DataFrame.getCol (df : DataFrame) (c : String) : Option Column :=
  df.cols.lookup c

def Column.isNumeric : Column → Bool
  | .numeric _ => true
  | _ => false

def Column.isDatetime : Column → Bool
  | .datetime _ => true
  | _ => false

/-- df.select_dtypes(include=[np.number]).columns, in dataframe order. -/
def DataFrame.numericCols (df : DataFrame) : List String :=
  df.cols.filterMap (fun p => if p.2.isNumeric then some p.1 else none)

/-- df.select_dtypes(include=datetime dtypes).columns, in dataframe order. -/
def DataFrame.datetimeCols (df : DataFrame) : List String :=
  df.cols.filterMap (fun p => if p.2.isDatetime then some p.1 else none)

/-- The numeric cells of a numeric column. -/
def Column.numVals : Column → Option (List (Option ℚ))
  | .numeric vs => some vs
  | _ => none

/-! ### Shared statistics helpers -/

/-- Stable insertion into a key-sorted list (equal keys keep input order). -/
def insertAsc {α β : Type} [LinearOrder β] (key : α → β) (x : α) : List α → List α
  | [] => [x]
  | y :: ys => if key y ≤ key x then y :: insertAsc key x ys else x :: y :: ys

/-- Stable ascending sort by key (pandas sort_values). -/
def sortByKey {α β : Type} [LinearOrder β] (key : α → β) (l : List α) : List α :=
  l.foldl (fun acc x => insertAsc key x acc) []

def meanQ (l : List ℚ) : ℚ := l.sum / (l.length : ℚ)

/-- Population variance (ddof=0): the exact square of the population
standard deviation pandas reports. -/
def varQ (l : List ℚ) : ℚ := meanQ (l.map (fun x => (x - meanQ l) ^ 2))

def minQ : List ℚ → ℚ
  | [] => 0
  | x :: xs => xs.foldl min x

def maxQ : List ℚ → ℚ
  | [] => 0
  | x :: xs => xs.foldl max x

/-- pandas median: middle element of the sorted values, or the average of
the two middle elements for an even count. -/
def medianQ (l : List ℚ) : ℚ :=
  let s := sortByKey id l
  let n := l.length
  if n % 2 = 1 then s.getD (n / 2) 0
  else (s.getD (n / 2 - 1) 0 + s.getD (n / 2) 0) / 2

/-- pandas linear-interpolation quantile on an already sorted list. -/
def quantileQ (s : List ℚ) (p : ℚ) : ℚ :=
  let n := s.length
  let h := p * ((n : ℚ) - 1)
  let i := (⌊h⌋).toNat
  let lo := s.getD i 0
  let hi := s.getD (i + 1) lo
  lo + (h - (⌊h⌋ : ℚ)) * (hi - lo)

/-! ### Insight generation (the insights endpoint, main.py lines 62-113) -/

/-- A structured finding.  Square-rooted display quantities carry their
exact squares: colStats stores the population variance (the square of the
reported std), correlation stores the squared Pearson coefficient (the
square of the reported absolute r).  The fixed 2-decimal formatting of
the human-readable strings is out of scope. -/
inductive Insight where
  | colStats (col : String) (mean median variance vmin vmax : ℚ)
  | trend (col : String) (changePct : ℚ)
  | correlation (a b : String) (r2 : ℚ)
  | outliers (col : String) (count : ℕ)
deriving DecidableEq

/-- Result of the insights endpoint.  The count fields are optional
because the empty-input early return omits them from the response. -/
structure InsightsResult where
  insights : List Insight
  row_count : Option ℕ
  column_count : Option ℕ
deriving DecidableEq

/-- The summary insight of one column, over its non-missing values;
skipped when no non-missing value exists. -/
def colStatsInsight (c : String) (s : List ℚ) : Option Insight :=
  if s.isEmpty then none
  else some (.colStats c (meanQ s) (medianQ s) (varQ s) (minQ s) (maxQ s))

/-- Numeric summaries: for up to the first 10 numeric columns, the
mean/median/std/min/max of the non-missing values; columns with no
non-missing value are skipped. -/
def statsInsights (df : DataFrame) : List Insight :=
  (df.numericCols.take 10).filterMap (fun c =>
    match df.getCol c with
    | some (.numeric vs) => colStatsInsight c (vs.filterMap id)
    | _ => none)

/-- Trend input: the first datetime column joined with the first numeric
column on row identity, rows missing either value dropped, sorted
ascending by time.  Returns the numeric column name with the points. -/
def trendPoints (df : DataFrame) : Option (String × List (ℤ × ℚ)) :=
  match df.datetimeCols.head?, df.numericCols.head? with
  | some dtc, some nc =>
    match df.getCol dtc, df.getCol nc with
    | some (.datetime ds), some (.numeric vs) =>
      let pts := (ds.zip vs).filterMap (fun p => p.1.bind (fun t => p.2.map (fun v => (t, v))))
      some (nc, sortByKey (fun q => ((q.1 : ℤ) : ℚ)) pts)
    | _, _ => none
  | _, _ => none

/-- Percent change from the first to the last point, substituting 1 for a
zero baseline, exactly as the code does. -/
def pctChange (pts : List (ℤ × ℚ)) : ℚ :=
  let f := (pts.headD (0, 0)).2
  let l := (pts.getLastD (0, 0)).2
  (l - f) / (if f = 0 then 1 else f) * 100

/-- The trend step: needs at least 4 joined points, else it is skipped. -/
def trendInsight (df : DataFrame) : Option Insight :=
  match trendPoints df with
  | some (nc, pts) =>
    if 4 ≤ pts.length then some (.trend nc (pctChange pts)) else none
  | none => none

/-- Exact squared Pearson correlation of two columns over their pairwise
complete observations, none where pandas produces NaN (a zero variance).
The squared value determines every comparison the code performs on the
absolute correlation. -/
def pairR2 (xs ys : List (Option ℚ)) : Option ℚ :=
  let ps := (xs.zip ys).filterMap (fun p => p.1.bind (fun a => p.2.map (fun b => (a, b))))
  let mx := meanQ (ps.map Prod.fst)
  let my := meanQ (ps.map Prod.snd)
  let vx := meanQ (ps.map (fun p => (p.1 - mx) ^ 2))
  let vy := meanQ (ps.map (fun p => (p.2 - my) ^ 2))
  let cov := meanQ (ps.map (fun p => (p.1 - mx) * (p.2 - my)))
  if vx * vy = 0 then none else some (cov ^ 2 / (vx * vy))

/-- The correlation step: with at least 2 numeric columns, all ordered
pairs of the absolute correlation matrix, entries at or above 0.999
dropped (duplicate filter: abs r at or above 0.999 means squared r at or
above 0.999 squared), remaining entries sorted descending, strongest
reported.  Skipped when nothing remains. -/
def corrCandidates (df : DataFrame) : List (String × String × ℚ) :=
  (df.numericCols.flatMap (fun a => df.numericCols.map (fun b => (a, b)))).filterMap
    (fun p =>
      match (df.getCol p.1).bind Column.numVals, (df.getCol p.2).bind Column.numVals with
      | some xs, some ys => (pairR2 xs ys).map (fun r2 => (p.1, p.2, r2))
      | _, _ => none)

def corrInsight (df : DataFrame) : Option Insight :=
  if 2 ≤ df.numericCols.length then
    (sortByKey (fun t => -t.2.2)
        ((corrCandidates df).filter
          (fun t => decide (t.2.2 < ((999 : ℚ) / 1000) ^ 2)))).head?.map
      (fun t => .correlation t.1 t.2.1 t.2.2)
  else none

/-- Values outside the fences q1 - 1.5 iqr and q3 + 1.5 iqr, the
counting core of the outlier step. -/
def outlierCount (s : List ℚ) : ℕ :=
  s.countP (fun v =>
    decide (v < quantileQ (sortByKey id s) (1 / 4)
              - 3 / 2 * (quantileQ (sortByKey id s) (3 / 4)
                          - quantileQ (sortByKey id s) (1 / 4)))
    || decide (quantileQ (sortByKey id s) (3 / 4)
                + 3 / 2 * (quantileQ (sortByKey id s) (3 / 4)
                            - quantileQ (sortByKey id s) (1 / 4)) < v))

/-- The outlier insight of one column: requires at least 8 non-missing
values and a positive count. -/
def outlierInsight (c : String) (s : List ℚ) : Option Insight :=
  if s.length < 8 then none
  else if 0 < outlierCount s then some (.outliers c (outlierCount s)) else none

def outlierInsights (df : DataFrame) : List Insight :=
  (df.numericCols.take 5).filterMap (fun c =>
    match df.getCol c with
    | some (.numeric vs) => outlierInsight c (vs.filterMap id)
    | _ => none)

/-- Insight generation on a typed table: empty table returns only the
empty insight list (no counts); otherwise counts plus the steps in fixed
order: per-column stats, trend, correlation, outliers. -/
def insightsDf (df : DataFrame) : InsightsResult :=
  if df.empty then ⟨[], none, none⟩
  else
    ⟨statsInsights df ++ (trendInsight df).toList ++ (corrInsight df).toList
       ++ outlierInsights df,
     some df.nrows, some df.cols.length⟩

/-- The insights endpoint: coerce the records, then generate insights. -/
def insights (data : List Record) : InsightsResult :=
  insightsDf (coerce_dataframe data)

/-! ### Forecasting (the forecast endpoint, main.py lines 169-208) -/

/-- The statsmodels capability.  An oracle receives the constructed
series (missing values included, as pandas passes them) and returns the
fitted step-ahead forecast function, one value per future step, exactly
the interface of res.forecast(steps=n); none models a raise during
fit or forecast.  The surrounding Option models the library import:
none means statsmodels is not installed. -/
abbrev Oracle := List (Option ℚ) → Option (ℕ → ℚ)

/-- Result of the forecast endpoint.  The missing-target early return
carries a message and no steps field; the normal return carries no
message, 12 forecast values and steps = 12.  A forecast value of none is
a float NaN. -/
structure ForecastResult where
  message : Option String
  forecast : List (Option ℚ)
  steps : Option ℕ
deriving DecidableEq

/-- All length-w windows of consecutive elements, in order. -/
def windows {α : Type} (w : ℕ) : List α → List (List α)
  | [] => []
  | x :: xs =>
    if w ≤ (x :: xs).length then (x :: xs).take w :: windows w xs
    else []

/-- ts.rolling(window=w).mean().dropna(): the mean of every complete
window all of whose entries are present; windows touching a missing
value produce NaN and are dropped together with the first w-1 positions. -/
def rollingMeans (w : ℕ) (ts : List (Option ℚ)) : List ℚ :=
  (windows w ts).filterMap (fun win =>
    if win.all Option.isSome then some (meanQ (win.filterMap id)) else none)

/-- The primary strategy attempt: ARIMA runs when statsmodels is
present and at least 8 observations exist; a successful fit yields the
first 12 step-ahead predictions, a raise yields none. -/
def smPrimary (sm : Option Oracle) (ts : List (Option ℚ)) : Option (List (Option ℚ)) :=
  match sm with
  | some f =>
    if 8 ≤ ts.length then (f ts).map (fun g => (List.range 12).map (fun i => some (g i)))
    else none
  | none => none

/-- The fallback window min(5, max(2, n div 4)), and 2 outright for
fewer than 2 points. -/
def fallbackWindow (n : ℕ) : ℕ :=
  if 2 ≤ n then min 5 (max 2 (n / 4)) else 2

/-- The moving-average fallback: the projected value is the last rolling
mean, or the last raw series entry when no rolling mean exists, repeated
12 times; indexing the last entry of an empty series raises. -/
def fallbackMA (ts : List (Option ℚ)) : Except String (List (Option ℚ)) :=
  match (rollingMeans (fallbackWindow ts.length) ts).getLast? with
  | some v => .ok (List.replicate 12 (some v))
  | none =>
    match ts.getLast? with
    | some ov => .ok (List.replicate 12 ov)
    | none => .error ("IndexError: single positional indexer is out-of-bounds")

/-- The try/except block of the forecast endpoint, given the constructed
series: the primary ARIMA strategy when it applies and succeeds, the
moving-average flat projection in every other case. -/
def forecastSeries (sm : Option Oracle) (ts : List (Option ℚ)) :
    Except String (List (Option ℚ)) :=
  match smPrimary sm ts with
  | some vs => .ok vs
  | none => fallbackMA ts

/-- Spacing of an ascending timestamp list when it is uniform and
positive: the case in which pd.infer_freq recognises a frequency.
Irregular spacings yield none, as does a repeated timestamp. -/
def uniformStep : List ℤ → Option ℤ
  | t0 :: t1 :: rest =>
    let d := t1 - t0
    if 0 < d ∧ (((t0 :: t1 :: rest).zip (t1 :: rest)).all (fun p => decide (p.2 - p.1 = d))) then
      some d
    else none
  | _ => none

/-- Membership of a duplicate among sorted timestamps. -/
def hasDup : List ℤ → Bool
  | t0 :: t1 :: rest => t0 = t1 || hasDup (t1 :: rest)
  | _ => false

/-- Value at an exact timestamp, none when the grid point has no
observation (reindexing fills it with NaN). -/
def lookupTime (t : ℤ) (pts : List (ℤ × ℚ)) : Option ℚ :=
  (pts.find? (fun p => decide (p.1 = t))).map (fun p => p.2)

/-- asfreq onto the daily grid from the first to the last timestamp
(pandas date-range defaults to daily when no frequency was inferred):
grid points with no observation become NaN. -/
def dailyGrid (pts : List (ℤ × ℚ)) : List (Option ℚ) :=
  match pts.head?, pts.getLast? with
  | some p0, some p1 =>
    (List.range ((p1.1 - p0.1).toNat + 1)).map (fun i => lookupTime (p0.1 + i) pts)
  | _, _ => none :: []

/-- The time-axis series construction of the forecast endpoint, used
when a date column was chosen and exists in the dataframe: join it with
the target, drop rows missing either value, sort ascending by time, then
resample through pd.infer_freq and asfreq.  pd.infer_freq raises on
fewer than 3 timestamps, and on a non-datetime axis; reindexing raises
on duplicate timestamps.  Non-numeric target values raise later, in
astype(float) under ARIMA or in the rolling mean of the fallback; this
is modelled as an error at construction. -/
def timeSeries (df : DataFrame) (dcol : Column) (target : String) :
    Except String (List (Option ℚ)) :=
  match dcol with
  | .datetime dts =>
    match df.getCol target with
    | some (.numeric vs) =>
      let pts := (dts.zip vs).filterMap (fun p => p.1.bind (fun t => p.2.map (fun v => (t, v))))
      let sorted := sortByKey (fun q => ((q.1 : ℤ) : ℚ)) pts
      if sorted.length < 3 then
        .error ("ValueError: Need at least 3 dates to infer frequency")
      else
        match uniformStep (sorted.map Prod.fst) with
        | some _ => .ok (sorted.map (fun p => some p.2))
        | none =>
          if hasDup (sorted.map Prod.fst) then
            .error ("ValueError: cannot reindex on an axis with duplicate labels")
          else .ok (dailyGrid sorted)
    | _ => .error ("TypeError: unsupported operand for astype or rolling")
  | _ => .error ("TypeError: cannot infer freq from a non-datetime index")

/-- The positional series construction: the target column with missing
values dropped, indexed 0,1,2,...  Non-numeric targets raise later; this
is modelled as an error at construction. -/
def positionalSeries (df : DataFrame) (target : String) :
    Except String (List (Option ℚ)) :=
  match df.getCol target with
  | some (.numeric vs) => .ok ((vs.filterMap id).map some)
  | _ => .error ("TypeError: unsupported operand for astype or rolling")

/-- Series construction of the forecast endpoint: pick the date column
(the given one when nonempty, else the first datetime column); when the
pick exists in the dataframe use the time-axis construction, otherwise
the positional one. -/
def buildSeries (df : DataFrame) (date_column : Option String) (target : String) :
    Except String (List (Option ℚ)) :=
  let dtSel : Option String :=
    match date_column with
    | some c => if c.isEmpty then df.datetimeCols.head? else some c
    | none => df.datetimeCols.head?
  match dtSel with
  | some c =>
    match df.getCol c with
    | some col => timeSeries df col target
    | none => positionalSeries df target
  | none => positionalSeries df target

/-- The forecast endpoint: coerce the records; return the missing-target
message when the dataframe is empty or the target column is absent; else
construct the series (errors here escape: this code is outside the
try block) and run the primary/fallback strategy selection. -/
def forecast (sm : Option Oracle) (data : List Record)
    (date_column : Option String) (target_column : String) :
    Except String ForecastResult :=
  if (coerce_dataframe data).empty
      || ((coerce_dataframe data).getCol target_column).isNone then
    .ok ⟨some ("No data or missing target."), [], none⟩
  else
    match buildSeries (coerce_dataframe data) date_column target_column with
    | .error e => .error e
    | .ok ts =>
      match forecastSeries sm ts with
      | .error e => .error e
      | .ok vs => .ok ⟨none, vs, some 12⟩

/-! ### Anomaly detection (the anomaly endpoint, main.py lines 210-239) -/

/-- The scikit-learn IsolationForest capability: an oracle receiving the
working subset rows and returning one anomaly flag per row (the
prediction -1 becomes true); none models a raise during fit or predict,
and the surrounding Option models the import. -/
abbrev AnomOracle := List (List ℚ) → Option (List Bool)

structure AnomalyResult where
  anomalies : List ℕ
deriving DecidableEq

/-- req.numeric_columns or df.select_dtypes(...): Python truthiness makes
both a missing list and an explicitly empty list fall back to all
numeric columns of the dataframe. -/
def effectiveCols (df : DataFrame) (numeric_columns : Option (List String)) : List String :=
  match numeric_columns with
  | some (c :: cs) => c :: cs
  | _ => df.numericCols

/-- Cells of a selected column as numbers.  Datetime cells enter the
arithmetic as their day index (the z-score is invariant under the affine
timestamp encoding).  Categorical cells have no numeric reading: pandas
raises on object-dtype aggregation in both the primary fit and the
fallback mean, modelled as none here and an error below. -/
def Column.qCells : Column → Option (List (Option ℚ))
  | .numeric vs => some vs
  | .datetime vs => some (vs.map (Option.map (fun t : ℤ => (t : ℚ))))
  | .categorical _ => none

/-- Cells of every selected column, left to right; a missing column name
is a KeyError, a categorical column a TypeError. -/
def seqCols (df : DataFrame) : List String → Except String (List (List (Option ℚ)))
  | [] => .ok []
  | c :: rest =>
    match df.getCol c with
    | none => .error ("KeyError: column not in index")
    | some col =>
      match col.qCells with
      | none => .error ("TypeError: could not convert values to numeric")
      | some cv =>
        match seqCols df rest with
        | .error e => .error e
        | .ok vs => .ok (cv :: vs)

/-- X = df[numeric_cols].dropna(): rows restricted to the selected
columns, rows with any missing selected value dropped, each surviving
row keeping its original input position as identifier. -/
def buildX (df : DataFrame) (cols : List String) :
    Except String (List (ℕ × List ℚ)) :=
  match seqCols df cols with
  | .error e => .error e
  | .ok colVals =>
    .ok ((List.range df.nrows).filterMap (fun i =>
      if (colVals.map (fun cv => cv.getD i none)).all Option.isSome then
        some (i, (colVals.map (fun cv => cv.getD i none)).filterMap id)
      else none))

/-- epsilon = 1e-9, the divisor guard of the z-score fallback. -/
def eps : ℚ := 1 / 1000000000

/-- Exact decision of the z-score comparison of the fallback:
whether the absolute value of (v - mean) / (popStd + eps) exceeds 3,
where popStd is the square root of the population variance.  Stated in
exact arithmetic on the variance: with t = the absolute deviation minus
3 eps, the comparison holds iff t is positive and t squared exceeds
9 times the variance. -/
def zFlag (v m variance : ℚ) : Bool :=
  decide (0 < |v - m| - 3 * eps)
    && decide (9 * variance < (|v - m| - 3 * eps) ^ 2)

/-- Mean and population variance of column j of the working subset
(X.mean() and X.std(ddof=0) squared). -/
def colStatsOf (x : List (ℕ × List ℚ)) (j : ℕ) : ℚ × ℚ :=
  let col := x.map (fun r => r.2.getD j 0)
  (meanQ col, varQ col)

/-- Whether any cell of a row exceeds the z threshold against the
per-column statistics. -/
def zFlagRow (stats : List (ℚ × ℚ)) (cells : List ℚ) : Bool :=
  (cells.zip stats).any (fun p => zFlag p.1 p.2.1 p.2.2)

/-- The z-score fallback: a row is flagged when any selected column
exceeds the threshold; the flagged rows contribute their original
identifiers, in order. -/
def zFallback (x : List (ℕ × List ℚ)) (k : ℕ) : List ℕ :=
  (x.filter (fun r => zFlagRow ((List.range k).map (colStatsOf x)) r.2)).map Prod.fst

/-- The anomaly endpoint: coerce, return empty on an empty dataframe or
an empty effective column selection or an empty working subset; else try
the IsolationForest oracle and fall back to the z-score rule whenever it
is unavailable or raises. -/
def anomaly (primary : Option AnomOracle) (data : List Record)
    (numeric_columns : Option (List String)) : Except String AnomalyResult :=
  if (coerce_dataframe data).empty then .ok ⟨[]⟩
  else
    if (effectiveCols (coerce_dataframe data) numeric_columns).isEmpty then .ok ⟨[]⟩
    else
      match buildX (coerce_dataframe data)
              (effectiveCols (coerce_dataframe data) numeric_columns) with
      | .error e => .error e
      | .ok x =>
        if x.isEmpty then .ok ⟨[]⟩
        else
          match primary.bind (fun f => f (x.map Prod.snd)) with
          | some mask =>
            .ok ⟨((x.map Prod.fst).zip mask).filterMap
                  (fun p => if p.2 then some p.1 else none)⟩
          | none =>
            .ok ⟨zFallback x
                  (effectiveCols (coerce_dataframe data) numeric_columns).length⟩

/-- Decidable equality of endpoint outcomes. -/
instance {ε α : Type} [DecidableEq ε] [DecidableEq α] : DecidableEq (Except ε α) := fun a b =>
  match a, b with
  | .error e, .error e' => if h : e = e' then .isTrue (by rw [h]) else .isFalse (by simp [h])
  | .ok v, .ok v' => if h : v = v' then .isTrue (by rw [h]) else .isFalse (by simp [h])
  | .error _, .ok _ => .isFalse (by simp)
  | .ok _, .error _ => .isFalse (by simp)

/-! ### Concrete inputs used by the claims -/

/-- Shorthand for a numeric field value. -/
def rn (q : ℚ) : Option Raw := some (.num q)

/-- Shorthand for a string field value. -/
def rs (s : String) : Option Raw := some (.str s)

/-- Two records with a date column and a numeric target: a forecast
request whose time axis has 2 timestamps. -/
def twoDatedRows : List Record :=
  [[("t", rs ("2020-01-01")), ("y", rn 1)],
   [("t", rs ("2020-01-02")), ("y", rn 2)]]

/-- Two records whose target column contains only missing values. -/
def allMissingTarget : List Record :=
  [[("y", none)], [("y", none)]]

/-- One record with one numeric column v. -/
def oneRowV : List Record := [[("v", rn 1)]]

/-- Eleven records: ten zeros and one 1000 in column v.  The z-score of
the last row is the square root of 10, above the threshold 3. -/
def tenZerosOneThousand : List Record :=
  List.replicate 10 [("v", rn 0)] ++ [[("v", rn 1000)]]

/-- The insights scenario rows with x and x2 = 2 x. -/
def c2rows : List Record :=
  [[("x", rn 1), ("x2", rn 2)],
   [("x", rn 2), ("x2", rn 4)],
   [("x", rn 3), ("x2", rn 6)],
   [("x", rn 4), ("x2", rn 8)]]

/-- The anomaly scenario rows 1, 2, 3, 100 in column v. -/
def fourSmallRows : List Record :=
  [[("v", rn 1)], [("v", rn 2)], [("v", rn 3)], [("v", rn 100)]]

/-- The anomaly scenario rows 1, 2, 3, 2, 1, 2, 3, 500 in column v. -/
def eightRowsWide : List Record :=
  [[("v", rn 1)], [("v", rn 2)], [("v", rn 3)], [("v", rn 2)],
   [("v", rn 1)], [("v", rn 2)], [("v", rn 3)], [("v", rn 500)]]

/-- Three records with numeric target y: a short series that always
takes the fallback path. -/
def threeRows : List Record :=
  [[("y", rn 1)], [("y", rn 2)], [("y", rn 3)]]

/-- Four dated records with values 5, 10, 15, 20: a trend scenario. -/
def fourTrendRows : List Record :=
  [[("t", rs ("2020-01-05")), ("y", rs ("5"))],
   [("t", rs ("2020-01-06")), ("y", rs ("10"))],
   [("t", rs ("2020-01-07")), ("y", rs ("15"))],
   [("t", rs ("2020-01-08")), ("y", rs ("20"))]]

/-- Discriminator for the correlation insight. -/
def Insight.isCorr : Insight → Bool
  | .correlation _ _ _ => true
  | _ => false

/-- Spec-side fallback forecast, from the words of the claim: a moving
average with window size clamp(point count div 4, minimum 2, maximum 5),
window 2 regardless when fewer than 2 points exist; the last computed
moving-average value, which is the mean of the last window many
observations when at least that many exist, or the last raw observation
when the moving average produced no value, repeated for all 12 steps. -/
def specFallbackForecast (ts : List ℚ) : List (Option ℚ) :=
  List.replicate 12
    (if (if ts.length < 2 then 2 else min 5 (max 2 (ts.length / 4))) ≤ ts.length then
      some (meanQ (ts.drop
        (ts.length - (if ts.length < 2 then 2 else min 5 (max 2 (ts.length / 4))))))
    else ts.getLast?)

/-- The trend findings of an insight list: column name and percent
change of every trend insight, in order. -/
def trendsOf (l : List Insight) : List (String × ℚ) :=
  l.filterMap (fun i =>
    match i with
    | .trend c v => some (c, v)
    | _ => none)

/-- Spec-side trend value, from the words of the claim: percent change
(last - first) / first times 100 with first replaced by 1 when it is
exactly zero, over the joined, filtered, time-sorted points. -/
def specTrendChange (pts : List (ℤ × ℚ)) : ℚ :=
  match pts.head?, pts.getLast? with
  | some f, some l => (l.2 - f.2) / (if f.2 = 0 then 1 else f.2) * 100
  | _, _ => 0

/-! ### Claim theorems -/

/-- C1: the propagation policy fails on the code: three boundary
requests on which an exception escapes the endpoint instead of a
structured result.  (1) a forecast whose chosen time axis has fewer than
3 timestamps reaches pd.infer_freq outside any try block, which raises
ValueError; (2) a forecast whose target column contains only missing
values reaches the fallback with an empty series and raises IndexError
inside the except handler; (3) an anomaly request with an explicit
column-name list naming an absent column raises KeyError in the column
selection.  All three hold with the optional libraries absent, a
runtime state the code explicitly supports with its guarded imports. -/
theorem boundary_operations_raise :
    forecast none twoDatedRows none ("y")
      = .error ("ValueError: Need at least 3 dates to infer frequency")
  ∧ forecast none allMissingTarget none ("y")
      = .error ("IndexError: single positional indexer is out-of-bounds")
  ∧ anomaly none oneRowV (some [("w")])
      = .error ("KeyError: column not in index") := by
  refine ⟨by decide, by decide, by decide⟩

/-- C2 counterexample: on the scenario rows the claimed strongest
correlation insight for x and x2 is not reported at all: the only pair
has absolute correlation 1, which the duplicate filter (absolute
correlation at or above 0.999) removes, so no correlation insight
appears in the result. -/
theorem insights_c2_no_correlation_reported :
    (insights c2rows).insights.any Insight.isCorr = false := by
  decide

/-- C2 amended: on the scenario rows the result reports the per-column
summary statistics of x and of x2 (and nothing else): the correlation
step is skipped because the single pair is removed by the filter that
drops pairs whose absolute correlation is at or above 0.999. -/
theorem insights_c2_amended :
    insights c2rows =
      ⟨[.colStats ("x") (5/2) (5/2) (5/4) 1 4,
        .colStats ("x2") 5 5 5 2 8],
       some 4, some 2⟩ := by
  decide

/-- C3 counterexample: an explicitly empty numeric-column selection does
not yield an empty result: Python truthiness routes the empty list to
the default all-numeric selection, and the detection then flags row 10
of the eleven-row input. -/
theorem anomaly_explicit_empty_selection_not_empty :
    anomaly none tenZerosOneThousand (some []) = .ok ⟨[10]⟩
  ∧ anomaly none tenZerosOneThousand (some []) ≠ .ok ⟨[]⟩ := by
  refine ⟨by decide, by decide⟩

/-- C7 counterexample: on the rows 1, 2, 3, 2, 1, 2, 3, 500 the z-score
fallback flags nothing: the deviation of 500 is 435.75 while three times
the population standard deviation is about 494.1 (a single outlier among
8 points has a z-score of at most the square root of 7, below 3), so the
claimed flagging of the row holding 500 is false. -/
theorem anomaly_zscore_wide_outlier_not_flagged :
    anomaly none eightRowsWide (some [("v")]) = .ok ⟨[]⟩ := by
  decide

/-- Spec-side predicate, from the words of the claim: every non-missing
value of the column parses under p. -/
def allParses {α : Type} (p : Raw → Option α) (vals : List (Option Raw)) : Bool :=
  vals.all (fun o => match o with
    | some r => (p r).isSome
    | none => true)

/-- The column-wide parse attempt succeeds exactly when every
non-missing value parses, and then returns the parsed values with
missing entries kept missing. -/
theorem tryAll_eq {α : Type} (p : Raw → Option α) (vals : List (Option Raw)) :
    tryAll p vals =
      if allParses p vals then some (vals.map (fun o => o.bind p)) else none := by
  induction vals with
  | nil => simp [tryAll, allParses]
  | cons o rest ih =>
    cases o with
    | none =>
      have ha : allParses p (none :: rest) = allParses p rest := by
        simp [allParses]
      rw [show tryAll p (none :: rest) = (tryAll p rest).map (fun t => none :: t) from rfl,
          ih, ha]
      cases h : allParses p rest <;> simp
    | some r =>
      cases hp : p r with
      | some a =>
        have ha : allParses p (some r :: rest) = allParses p rest := by
          simp [allParses, hp]
        rw [show tryAll p (some r :: rest)
              = (match p r with
                 | none => none
                 | some a => (tryAll p rest).map (fun t => some a :: t)) from rfl,
            hp, ih, ha]
        cases h : allParses p rest <;> simp [hp]
      | none =>
        have ha : allParses p (some r :: rest) = false := by
          simp [allParses, hp]
        rw [ha]
        simp [tryAll, hp]

/-- C4: a column is typed numeric iff every non-missing value parses as
numeric, and then the values are the parsed numbers with missing entries
kept missing (never zero); otherwise it is datetime iff every
non-missing value parses as a datetime; otherwise it stays categorical
with the original values.  The parse attempts are total functions: a
failed attempt cannot raise, it selects the next branch. -/
theorem coerceColumn_types (vals : List (Option Raw)) :
    coerceColumn vals =
      if allParses rawToNum vals then
        .numeric (vals.map (fun o => o.bind rawToNum))
      else if allParses rawToDate vals then
        .datetime (vals.map (fun o => o.bind rawToDate))
      else .categorical vals := by
  unfold coerceColumn
  rw [tryAll_eq, tryAll_eq]
  cases h1 : allParses rawToNum vals <;> cases h2 : allParses rawToDate vals <;> simp

/-- A successful primary attempt yields exactly 12 values. -/
theorem smPrimary_len (sm : Option Oracle) (ts : List (Option ℚ))
    (vs : List (Option ℚ)) (h : smPrimary sm ts = some vs) :
    vs.length = 12 := by
  cases sm with
  | none => simp [smPrimary] at h
  | some f =>
    simp only [smPrimary] at h
    split at h
    · cases hg : f ts with
      | none => rw [hg] at h; simp at h
      | some g =>
        rw [hg] at h
        simp only [Option.map] at h
        cases h
        simp
    · simp at h

/-- A non-raising fallback yields exactly 12 values. -/
theorem fallbackMA_len (ts : List (Option ℚ)) (vs : List (Option ℚ))
    (h : fallbackMA ts = .ok vs) : vs.length = 12 := by
  unfold fallbackMA at h
  split at h
  next v hv => cases h; simp
  next hv =>
    split at h
    next ov hov => cases h; simp
    next => cases h

/-- Both strategy branches of the forecast produce exactly 12 values:
the primary takes the first 12 step-ahead predictions, the fallback
replicates the projected value 12 times. -/
theorem forecastSeries_ok_len (sm : Option Oracle) (ts : List (Option ℚ))
    (vs : List (Option ℚ)) (h : forecastSeries sm ts = .ok vs) :
    vs.length = 12 := by
  unfold forecastSeries at h
  split at h
  next vs' hp =>
    cases h
    exact smPrimary_len sm ts _ hp
  next hp =>
    exact fallbackMA_len ts vs h

/-- C5: whenever the forecast endpoint completes normally (no escape of
an exception and not the missing-target early return), the result holds
exactly 12 forecast values and the step count 12, whichever strategy
produced them. -/
theorem forecast_always_12 (sm : Option Oracle) (data : List Record)
    (dc : Option String) (target : String) (r : ForecastResult)
    (hok : forecast sm data dc target = .ok r) (hmsg : r.message = none) :
    r.forecast.length = 12 ∧ r.steps = some 12 := by
  unfold forecast at hok
  split at hok
  · cases hok
    simp at hmsg
  · split at hok
    · cases hok
    next ts hts =>
      split at hok
      · cases hok
      next vs hvs =>
        cases hok
        exact ⟨forecastSeries_ok_len sm ts vs hvs, rfl⟩

/-- C5 witness: a concrete three-point request completes normally with
12 values and step count 12. -/
theorem forecast_always_12_witness :
    (ForecastResult.mk none (List.replicate 12 (some (5/2 : ℚ))) (some 12)).forecast.length = 12
  ∧ (ForecastResult.mk none (List.replicate 12 (some (5/2 : ℚ))) (some 12)).steps = some 12 :=
  forecast_always_12 none threeRows none ("y")
    (ForecastResult.mk none (List.replicate 12 (some (5/2 : ℚ))) (some 12))
    (by decide) rfl

/-- Every row of the working subset keeps an identifier below the row
count of the dataframe. -/
theorem mem_buildX_lt (df : DataFrame) (cols : List String)
    (x : List (ℕ × List ℚ)) (hx : buildX df cols = .ok x)
    (p : ℕ × List ℚ) (hp : p ∈ x) : p.1 < df.nrows := by
  unfold buildX at hx
  split at hx
  · cases hx
  next colVals hc =>
    cases hx
    rcases List.mem_filterMap.1 hp with ⟨i, hi, hif⟩
    split at hif
    · cases hif
      exact List.mem_range.1 hi
    · cases hif

/-- C9: every row identifier returned by the anomaly endpoint, under
the primary strategy for any oracle and under the z-score fallback, is
the original input position of some input row: identifiers come from
the working subset, which stores original positions through the
missing-value row drop, so they are always below the input length. -/
theorem anomaly_ids_in_range (primary : Option AnomOracle) (data : List Record)
    (cols : Option (List String)) (r : AnomalyResult) (i : ℕ)
    (hok : anomaly primary data cols = .ok r) (hi : i ∈ r.anomalies) :
    i < data.length := by
  have hn : (coerce_dataframe data).nrows = data.length := rfl
  unfold anomaly at hok
  split at hok
  · cases hok; simp at hi
  · split at hok
    · cases hok; simp at hi
    · split at hok
      · cases hok
      next x hx =>
        split at hok
        · cases hok; simp at hi
        · split at hok
          next mask hm =>
            cases hok
            rcases List.mem_filterMap.1 hi with ⟨q, hq, hqe⟩
            split at hqe
            · cases hqe
              have h1 := (List.of_mem_zip hq).1
              rcases List.mem_map.1 h1 with ⟨pp, hpp, hppe⟩
              rw [← hppe]
              exact hn ▸ mem_buildX_lt _ _ _ hx pp hpp
            · cases hqe
          next hm =>
            cases hok
            unfold zFallback at hi
            rcases List.mem_map.1 hi with ⟨pp, hpp, hppe⟩
            have h2 := List.mem_of_mem_filter hpp
            rw [← hppe]
            exact hn ▸ mem_buildX_lt _ _ _ hx pp h2

/-- C9 witness: on the eleven-row input the flagged identifier 10 is an
original input position. -/
theorem anomaly_ids_in_range_witness : 10 < tenZerosOneThousand.length :=
  anomaly_ids_in_range none tenZerosOneThousand none ⟨[10]⟩ 10
    (by decide) (by decide)

/-- C3 amended: the anomaly endpoint returns the empty result whenever
the inferred table is empty, and whenever the effective selection is
empty, where the effective selection is the caller list when it is
nonempty and otherwise all numeric columns of the table (an explicitly
empty caller list is treated as absent by Python truthiness). -/
theorem anomaly_empty_selection_amended (primary : Option AnomOracle)
    (data : List Record) (cols : Option (List String)) :
    ((coerce_dataframe data).empty = true → anomaly primary data cols = .ok ⟨[]⟩)
  ∧ (effectiveCols (coerce_dataframe data) cols = [] →
      anomaly primary data cols = .ok ⟨[]⟩) := by
  constructor
  · intro h
    unfold anomaly
    simp [h]
  · intro h
    unfold anomaly
    by_cases he : (coerce_dataframe data).empty = true <;> simp [he, h]

/-- C3 amended witness: the empty input yields the empty result. -/
theorem anomaly_empty_selection_amended_witness :
    anomaly none ([] : List Record) none = .ok ⟨[]⟩ :=
  (anomaly_empty_selection_amended none [] none).1 (by decide)

/-- C10: on the empty input the insights result is only the empty
insight list: the count fields are absent, while on a non-empty input
both counts are present. -/
theorem insights_empty_input_omits_counts :
    insights ([] : List Record) = ⟨[], none, none⟩
  ∧ insights [[("a", rn 1)]] =
      ⟨[.colStats ("a") 1 1 0 1 1], some 1, some 1⟩ := by
  refine ⟨by decide, by decide⟩

/-- Windowing commutes with mapping over elements. -/
theorem windows_map {α β : Type} (f : α → β) (w : ℕ) (l : List α) :
    windows w (l.map f) = (windows w l).map (List.map f) := by
  induction l with
  | nil => simp [windows]
  | cons x xs ih =>
    by_cases hw : w ≤ xs.length + 1
    · rw [show windows w ((x :: xs).map f)
            = ((x :: xs).map f).take w :: windows w (xs.map f) from by
          simp [windows, hw]]
      rw [show windows w (x :: xs) = (x :: xs).take w :: windows w xs from by
          simp [windows, hw]]
      simp [ih, List.map_take]
    · rw [show windows w ((x :: xs).map f) = [] from by simp [windows, hw],
          show windows w (x :: xs) = [] from by simp [windows, hw]]
      simp

/-- On a series with no missing value every window is complete, so the
rolling means are exactly the window means. -/
theorem rollingMeans_map_some (w : ℕ) (ts : List ℚ) :
    rollingMeans w (ts.map some) = (windows w ts).map meanQ := by
  unfold rollingMeans
  rw [windows_map]
  generalize windows w ts = L
  induction L with
  | nil => simp
  | cons win rest ih =>
    have h1 : (win.map some).all Option.isSome = true := by
      simp [List.all_map, Function.comp]
    have h2 : (win.map some).filterMap id = win := by
      simp [List.filterMap_map, Function.comp]
    have hhead : (if (List.map some win).all Option.isSome then
        some (meanQ ((List.map some win).filterMap id)) else none) = some (meanQ win) := by
      rw [if_pos h1, h2]
    rw [List.map_cons,
        @List.filterMap_cons_some _ _
          (fun win => if win.all Option.isSome then some (meanQ (win.filterMap id)) else none)
          (List.map some win) (List.map (List.map some) rest) (meanQ win) hhead,
        ih, List.map_cons]

/-- Fewer elements than the window size leave no window. -/
theorem windows_eq_nil {α : Type} (w : ℕ) (l : List α) (h : l.length < w) :
    windows w l = [] := by
  cases l with
  | nil => simp [windows]
  | cons x xs =>
    simp only [List.length_cons] at h
    simp [windows, Nat.not_le.2 h]

/-- With at least window many elements, the last window is the suffix of
window many elements. -/
theorem windows_getLast (w : ℕ) (hw : 1 ≤ w) {α : Type} (l : List α)
    (hl : w ≤ l.length) :
    (windows w l).getLast? = some (l.drop (l.length - w)) := by
  induction l with
  | nil => simp at hl; omega
  | cons x xs ih =>
    have hl1 : w ≤ xs.length + 1 := by simpa using hl
    rw [show windows w (x :: xs) = (x :: xs).take w :: windows w xs from by
        simp [windows, hl1]]
    by_cases h2 : w ≤ xs.length
    · have hne : windows w xs ≠ [] := by
        intro hnil
        have hlast := ih h2
        rw [hnil] at hlast
        simp at hlast
      cases hwx : windows w xs with
      | nil => exact absurd hwx hne
      | cons b bs =>
        rw [List.getLast?_cons_cons, ← hwx, ih h2]
        have hlen : (x :: xs).length - w = (xs.length - w) + 1 := by
          simp only [List.length_cons]
          omega
        rw [hlen, List.drop_succ_cons]
    · have hwl : w = xs.length + 1 := by
        simp only [List.length_cons] at hl
        omega
      rw [windows_eq_nil w xs (by omega)]
      have htake : (x :: xs).take w = x :: xs := by
        rw [hwl]
        exact List.take_of_length_le (by simp)
      have hdrop : (x :: xs).drop ((x :: xs).length - w) = x :: xs := by
        have : (x :: xs).length - w = 0 := by simp [hwl]
        rw [this]
        rfl
      rw [htake, hdrop]
      rfl

/-- On a nonempty series with no missing value the fallback is the flat
12-step projection of the spec-side moving-average value. -/
theorem fallbackMA_map_some (ts : List ℚ) (hne : ts ≠ []) :
    fallbackMA (ts.map some) = .ok (specFallbackForecast ts) := by
  have hw1 : 1 ≤ fallbackWindow ts.length := by
    unfold fallbackWindow
    by_cases h : 2 ≤ ts.length <;> simp [h]
  have hspecw : (if ts.length < 2 then 2 else min 5 (max 2 (ts.length / 4)))
      = fallbackWindow ts.length := by
    unfold fallbackWindow
    by_cases h : 2 ≤ ts.length
    · rw [if_pos h, if_neg (by omega)]
    · rw [if_neg h, if_pos (by omega)]
  unfold fallbackMA specFallbackForecast
  rw [List.length_map, rollingMeans_map_some, hspecw, List.getLast?_map]
  by_cases hcase : fallbackWindow ts.length ≤ ts.length
  · rw [windows_getLast (fallbackWindow ts.length) hw1 ts hcase, if_pos hcase]
    rfl
  · rw [windows_eq_nil (fallbackWindow ts.length) ts (by omega), if_neg hcase]
    cases hl : ts.getLast? with
    | none =>
      exact absurd (List.getLast?_eq_none_iff.1 hl) hne
    | some v =>
      rw [List.getLast?_map, hl]
      rfl

/-- C6: whenever the primary strategy is unavailable, or fewer than 8
observations exist, or the fit raises, the forecast is the fallback: the
flat 12-step projection of the last moving-average value with window
clamp(count div 4, 2, 5) (2 regardless below 2 points), or of the last
raw observation when the moving average produced no value.  In
particular any series of fewer than 8 points yields this fallback result
whatever the primary oracle would have answered. -/
theorem forecast_fallback_projection (sm : Option Oracle) (ts : List ℚ)
    (hne : ts ≠ [])
    (h : sm = none ∨ ts.length < 8 ∨ ∃ f, sm = some f ∧ f (ts.map some) = none) :
    forecastSeries sm (ts.map some) = .ok (specFallbackForecast ts) := by
  have hp : smPrimary sm (ts.map some) = none := by
    rcases h with rfl | hlen | ⟨f, rfl, hf⟩
    · rfl
    · cases sm with
      | none => rfl
      | some f =>
        have h8 : ¬ 8 ≤ (ts.map some).length := by
          rw [List.length_map]
          omega
        simp only [smPrimary]
        rw [if_neg h8]
    · by_cases h8 : 8 ≤ (ts.map some).length
      · simp only [smPrimary]
        rw [if_pos h8, hf]
        rfl
      · simp only [smPrimary]
        rw [if_neg h8]
  unfold forecastSeries
  rw [hp]
  exact fallbackMA_map_some ts hne

/-- C6 witness: a three-point series with the library absent projects
the last rolling mean of window 2 for 12 steps. -/
theorem forecast_fallback_projection_witness :
    forecastSeries none (([1, 2, 3] : List ℚ).map some)
      = .ok (specFallbackForecast [1, 2, 3]) :=
  forecast_fallback_projection none [1, 2, 3] (by decide) (Or.inl rfl)

/-- C7 amended: in the z-score fallback a row is anomalous iff some
selected column exceeds the threshold: the per-cell decision zFlag is
exactly the claimed absolute value of (value - mean) / (popStd + 1e-9)
exceeding 3, with popStd the square root of the population variance, and
a row is flagged iff some of its cells is.  On the rows 1, 2, 3, 100 the
anomaly set is empty, and on 1, 2, 3, 2, 1, 2, 3, 500 it is also empty:
the deviation of 500 stays below 3 population standard deviations, so
the row holding 500 is not flagged. -/
theorem anomaly_zscore_amended :
    (∀ v m variance : ℚ, 0 ≤ variance →
      (zFlag v m variance = true ↔
        3 < |((v : ℝ) - (m : ℝ)) / (Real.sqrt (variance : ℝ) + ((eps : ℚ) : ℝ))|))
  ∧ (∀ (stats : List (ℚ × ℚ)) (cells : List ℚ),
      zFlagRow stats cells = true ↔
        ∃ p ∈ cells.zip stats, zFlag p.1 p.2.1 p.2.2 = true)
  ∧ anomaly none fourSmallRows (some [("v")]) = .ok ⟨[]⟩
  ∧ anomaly none eightRowsWide (some [("v")]) = .ok ⟨[]⟩ := by
  refine ⟨?_, ?_, by decide, by decide⟩
  · intro v m variance hvar
    have hvar' : (0 : ℝ) ≤ (variance : ℝ) := by exact_mod_cast hvar
    have hs2 : Real.sqrt (variance : ℝ) ^ 2 = (variance : ℝ) := Real.sq_sqrt hvar'
    have hs0 : (0 : ℝ) ≤ Real.sqrt (variance : ℝ) := Real.sqrt_nonneg _
    have heps : (0 : ℚ) < eps := by norm_num [eps]
    have he0 : (0 : ℝ) < ((eps : ℚ) : ℝ) := by exact_mod_cast heps
    have hden : (0 : ℝ) < Real.sqrt (variance : ℝ) + ((eps : ℚ) : ℝ) := by linarith
    rw [abs_div, abs_of_pos hden, lt_div_iff₀ hden]
    simp only [zFlag, Bool.and_eq_true, decide_eq_true_eq]
    constructor
    · rintro ⟨h1, h2⟩
      rify at h1 h2
      nlinarith [hs0, hs2, h1, h2]
    · intro h
      have hA : (0 : ℝ) < |(v : ℝ) - (m : ℝ)| - 3 * ((eps : ℚ) : ℝ)
          - 3 * Real.sqrt (variance : ℝ) := by linarith
      have hB : (0 : ℝ) < |(v : ℝ) - (m : ℝ)| - 3 * ((eps : ℚ) : ℝ)
          + 3 * Real.sqrt (variance : ℝ) := by linarith
      constructor
      · rify
        linarith
      · rify
        nlinarith [hA, hB, hs2]
  · intro stats cells
    simp [zFlagRow, List.any_eq_true]

/-- C7 amended witness: the cell-level equivalence at deviation 4, mean
0, variance 1. -/
theorem anomaly_zscore_amended_witness :
    zFlag 4 0 1 = true ↔
      3 < |(((4 : ℚ) : ℝ) - ((0 : ℚ) : ℝ))
            / (Real.sqrt ((1 : ℚ) : ℝ) + ((eps : ℚ) : ℝ))| :=
  anomaly_zscore_amended.1 4 0 1 (by norm_num)

/-- A filterMap producing only values on which a projection vanishes
contributes nothing to the projection. -/
theorem filterMap_filterMap_none {α β γ : Type} (g : α → Option β) (p : β → Option γ)
    (l : List α) (h : ∀ a b, g a = some b → p b = none) :
    (l.filterMap g).filterMap p = [] := by
  induction l with
  | nil => rfl
  | cons a rest ih =>
    cases hg : g a with
    | none =>
      rw [List.filterMap_cons_none hg]
      exact ih
    | some b =>
      rw [List.filterMap_cons_some hg, List.filterMap_cons_none (h a b hg)]
      exact ih

theorem trendsOf_append (l1 l2 : List Insight) :
    trendsOf (l1 ++ l2) = trendsOf l1 ++ trendsOf l2 := by
  unfold trendsOf
  exact List.filterMap_append l1 l2 _

/-- The summary step emits no trend insight. -/
theorem trendsOf_stats (df : DataFrame) : trendsOf (statsInsights df) = [] := by
  unfold trendsOf statsInsights
  apply filterMap_filterMap_none
  intro a b hg
  split at hg
  next vs heq =>
    unfold colStatsInsight at hg
    split at hg
    · cases hg
    · cases hg
      rfl
  next => cases hg

/-- The outlier step emits no trend insight. -/
theorem trendsOf_outliers (df : DataFrame) : trendsOf (outlierInsights df) = [] := by
  unfold trendsOf outlierInsights
  apply filterMap_filterMap_none
  intro a b hg
  split at hg
  next vs heq =>
    unfold outlierInsight at hg
    split at hg
    · cases hg
    · split at hg
      · cases hg
        rfl
      · cases hg
  next => cases hg

theorem trendsOf_toList_corrMap (o : Option (String × String × ℚ)) :
    trendsOf (o.map (fun t => Insight.correlation t.1 t.2.1 t.2.2)).toList = [] := by
  cases o <;> rfl

/-- The correlation step emits no trend insight. -/
theorem trendsOf_corr (df : DataFrame) : trendsOf (corrInsight df).toList = [] := by
  unfold corrInsight
  split
  · exact trendsOf_toList_corrMap _
  · rfl

/-- On a nonempty point list the code percent change agrees with the
spec formula over first and last points. -/
theorem pctChange_eq_spec (pts : List (ℤ × ℚ)) (hne : pts ≠ []) :
    pctChange pts = specTrendChange pts := by
  cases pts with
  | nil => exact absurd rfl hne
  | cons p ps =>
    unfold pctChange specTrendChange
    rw [show (p :: ps).head? = some p from rfl]
    cases hl : (p :: ps).getLast? with
    | none =>
      simp [List.getLast?_eq_none_iff] at hl
    | some l0 =>
      have h1 : (p :: ps).headD (0, 0) = p := rfl
      have h2 : (p :: ps).getLastD (0, 0) = l0 := by
        rw [List.getLastD_eq_getLast?, hl]
        rfl
      rw [h1, h2]

/-- C8: with both a datetime and a numeric column present, the trend
step of generate-insights reports, for the joined, missing-dropped,
time-sorted points of the first datetime and first numeric columns,
exactly one trend insight when at least 4 points exist, whose value is
(last - first) / first times 100 with first replaced by 1 when it is
exactly zero; with fewer than 4 points it reports none. -/
theorem trend_step (df : DataFrame) (nc : String) (pts : List (ℤ × ℚ))
    (hdf : df.empty = false)
    (hpts : trendPoints df = some (nc, pts)) :
    (4 ≤ pts.length →
      trendsOf (insightsDf df).insights = [(nc, specTrendChange pts)])
  ∧ (pts.length < 4 → trendsOf (insightsDf df).insights = []) := by
  have ht : trendInsight df
      = if 4 ≤ pts.length then some (.trend nc (pctChange pts)) else none := by
    unfold trendInsight
    rw [hpts]
  have htl : trendsOf (insightsDf df).insights = trendsOf (trendInsight df).toList := by
    have hins : (insightsDf df).insights
        = statsInsights df ++ (trendInsight df).toList ++ (corrInsight df).toList
            ++ outlierInsights df := by
      simp [insightsDf, hdf]
    rw [hins, trendsOf_append, trendsOf_append, trendsOf_append,
        trendsOf_stats, trendsOf_corr, trendsOf_outliers]
    simp
  constructor
  · intro h4
    rw [htl, ht, if_pos h4]
    show trendsOf [Insight.trend nc (pctChange pts)] = [(nc, specTrendChange pts)]
    rw [pctChange_eq_spec pts (by
      intro hnil
      rw [hnil] at h4
      simp at h4)]
    rfl
  · intro h4
    rw [htl, ht, if_neg (by omega)]
    rfl

/-- C8 witness: four dated points 5, 10, 15, 20 report a 300 percent
change on column y. -/
theorem trend_step_witness :
    trendsOf (insights fourTrendRows).insights = [(("y"), 300)] := by
  have h := (trend_step (coerce_dataframe fourTrendRows) ("y")
      [(751444, 5), (751445, 10), (751446, 15), (751447, 20)]
      (by decide) (by decide)).1 (by decide)
  exact h.trans (by decide)

end Nika
